import Mathlib

/-!
Shallow embedding of `src/function_app.py`, the single source file of the
repository: an Azure Function that reads rows from `victory.csv`, sends each
row to an LLM completion endpoint with a fixed adversarial system prompt,
validates the response against the pydantic schema `L_T_Output`, overwrites
the returned identifier with `ID-uuid4[:8]`, and upserts each result into
Cosmos DB.

The pure data flow is translated directly.  The three external effects are
modelled as explicit parameters giving the outcome of each call:
* `svc i msg`  — outcome of the completion call for row index `i`
  (`Except.error` models an exception thrown by the API call or by the
  `response_model` schema validation of a malformed reply; validation of the
  literal tags is modelled separately by `validateOutput` so that
  out-of-range tags are visible),
* `store i v`  — whether the Cosmos `upsert_item` call for row `i` succeeds,
* `uuids i`    — the string form of the `uuid.uuid4()` drawn for row `i`.
The log stream is reified as a list of structured `LogEntry` values carrying
exactly the data interpolated into the corresponding `logging` call.
-/

/-- Outcome tag of the pydantic schema field `L_T_Output.status`,
declared in the source as `Literal["CONTRADICTION", "CONSEQUENCE"]`. -/
inductive Status where
  | CONTRADICTION
  | CONSEQUENCE
deriving DecidableEq

/-- Classification tag of the pydantic schema field `L_T_Output.hardener_type`,
declared as `Literal["PHYSICAL", "TEMPORAL", "SOCIAL", "OTHER"]`. -/
inductive HardenerType where
  | PHYSICAL
  | TEMPORAL
  | SOCIAL
  | OTHER
deriving DecidableEq

/-- The pydantic model `L_T_Output`: the structured output for a single
L ≡ T simulation step (six fields). -/
structure L_T_Output where
  id : String
  truth_input : String
  truth_history : List String
  status : Status
  detail : String
  hardener_type : HardenerType
deriving DecidableEq

/-- The raw JSON object produced by the completion service before the
`Literal` tag checks of `L_T_Output` are applied: the two tag fields are
still arbitrary strings. -/
structure RawOutput where
  id : String
  truth_input : String
  truth_history : List String
  status : String
  detail : String
  hardener_type : String
deriving DecidableEq

/-- Check of the `status` field against `Literal["CONTRADICTION",
"CONSEQUENCE"]`. -/
def statusOfString (s : String) : Option Status :=
  if s = "CONTRADICTION" then some Status.CONTRADICTION
  else if s = "CONSEQUENCE" then some Status.CONSEQUENCE
  else none

/-- Check of the `hardener_type` field against `Literal["PHYSICAL",
"TEMPORAL", "SOCIAL", "OTHER"]`. -/
def hardenerOfString (s : String) : Option HardenerType :=
  if s = "PHYSICAL" then some HardenerType.PHYSICAL
  else if s = "TEMPORAL" then some HardenerType.TEMPORAL
  else if s = "SOCIAL" then some HardenerType.SOCIAL
  else if s = "OTHER" then some HardenerType.OTHER
  else none

/-- The schema validation performed by `response_model=L_T_Output` in the
`chat.completions.create` call: a raw reply whose tag fields are outside the
declared `Literal` values raises a validation error (inside the per-row
`try`); otherwise the six fields are taken over unchanged. -/
def validateOutput (r : RawOutput) : Except String L_T_Output :=
  match statusOfString r.status, hardenerOfString r.hardener_type with
  | some st, some ht =>
      Except.ok { id := r.id, truth_input := r.truth_input,
                  truth_history := r.truth_history, status := st,
                  detail := r.detail, hardener_type := ht }
  | _, _ => Except.error "validation error for L_T_Output: value is not a permitted literal"

/-- One row of the input CSV.  The field names mirror the columns the source
reads: `row["ID"]`, `row["Category"]`,
`row["Full Victory Condition Statement"]`, `row["Summary Title"]`. -/
structure Row where
  ID : String
  Category : String
  fullStatement : String
  summaryTitle : String
deriving DecidableEq

/-- `INITIAL_HISTORY`: the three core truths every input is judged against
(lines 73–77 of the source). -/
def INITIAL_HISTORY : List String :=
  ["The world is governed by the principle that Logic is Truth (L ≡ T).",
   "All established facts are immutable until logically proven otherwise.",
   "A character\x27s identity is fundamentally linked to their accepted or rejected origin story."]

/-- The category-derived statement appended per row:
`f"The current game context is focused on the '{row['Category']}' domain."`. -/
def contextStatement (category : String) : String :=
  "The current game context is focused on the \x27" ++ category ++ "\x27 domain."

/-- `current_history = INITIAL_HISTORY + [contextStatement]` (line 100). -/
def currentHistory (row : Row) : List String :=
  INITIAL_HISTORY ++ [contextStatement row.Category]

/-- The content of `user_message = json.dumps({"truth_input": ...,
"truth_history": ...})` sent to the completion service for one row. -/
structure UserMessage where
  truth_input : String
  truth_history : List String
deriving DecidableEq

/-- Builds the request payload of one row (lines 97–106). -/
def userMessage (row : Row) : UserMessage :=
  { truth_input := row.fullStatement, truth_history := currentHistory row }

/-- One structured log line, carrying the data interpolated into the
corresponding `logging.info` / `logging.error` call in the source. -/
inductive LogEntry where
  | start (cases : Nat) (path : String)
  | processed (caseId : String) (title : String) (status : Status)
  | rowError (caseId : String) (stmt : String) (err : String)
  | complete
  | configError (err : String)
  | runtimeError (err : String)
deriving DecidableEq

/-- Python `str(uuid.uuid4())[:8]`: the first 8 characters of the uuid
string. -/
def randSuffix (u : String) : String :=
  String.mk (u.data.take 8)

/-- `f"{row['ID']}-{str(uuid.uuid4())[:8]}"` (line 124): the identifier that
overwrites the model-assigned one. -/
def mkId (row : Row) (u : String) : String :=
  row.ID ++ "-" ++ randSuffix u

/-- The body of the per-row loop (lines 96–133).  Returns the upserted
document, if any, together with the log line the row produced.  The `try`
block covers the completion call (`svc`), the schema validation
(`validateOutput`), the identifier overwrite, and the Cosmos upsert
(`store`); any failure is logged via
`logging.error(f"!!! CRITICAL ERROR processing Case {row['ID']}
('{truth_input}'): {e}")` and yields no upsert. -/
def processRow (svc : Nat → UserMessage → Except String RawOutput)
    (store : Nat → L_T_Output → Bool) (uuids : Nat → String)
    (i : Nat) (row : Row) : Option L_T_Output × LogEntry :=
  match svc i (userMessage row) with
  | Except.error e => (none, LogEntry.rowError row.ID row.fullStatement e)
  | Except.ok raw =>
    match validateOutput raw with
    | Except.error e => (none, LogEntry.rowError row.ID row.fullStatement e)
    | Except.ok out =>
      let result := { out with id := mkId row (uuids i) }
      if store i result then
        (some result, LogEntry.processed row.ID row.summaryTitle result.status)
      else
        (none, LogEntry.rowError row.ID row.fullStatement "upsert failed")

/-- The `for index, row in df.iterrows()` loop: rows are processed strictly
in order; the first component collects the documents upserted to Cosmos in
write order, the second the per-row log lines. -/
def batchLoop (svc : Nat → UserMessage → Except String RawOutput)
    (store : Nat → L_T_Output → Bool) (uuids : Nat → String) :
    Nat → List Row → List L_T_Output × List LogEntry
  | _, [] => ([], [])
  | i, row :: rest =>
    let p := processRow svc store uuids i row
    let q := batchLoop svc store uuids (i + 1) rest
    (p.1.toList ++ q.1, p.2 :: q.2)

/-- The observable outcome of one completed batch run. -/
structure BatchResult where
  upserts : List L_T_Output
  logs : List LogEntry
deriving DecidableEq

/-- `run_simulation_batch` (lines 63–135).  `cosmosInit`, `csvData` and
`openaiInit` give the outcomes of the three set-up steps that run before the
loop, in the order the source performs them: Cosmos client construction
(lines 80–82), `pd.read_csv` (line 85), OpenAI client construction (lines
90–94).  A failure of any of them is not caught here and propagates; the
error carries the log lines the function has already emitted before the
abort — the start summary line (line 87) is logged after the CSV is read
but before the OpenAI client is constructed, so a failing OpenAI client
construction aborts with the start line already in the stream, while the
two earlier failures abort with nothing yet logged.  Otherwise every row is
processed and the start and completion summary lines frame the per-row
logs. -/
def run_simulation_batch (cosmosInit : Except String Unit)
    (csvData : Except String (List Row)) (openaiInit : Except String Unit)
    (svc : Nat → UserMessage → Except String RawOutput)
    (store : Nat → L_T_Output → Bool) (uuids : Nat → String)
    (csv_file_path : String) : Except (String × List LogEntry) BatchResult :=
  match cosmosInit with
  | Except.error e => Except.error (e, [])
  | Except.ok _ =>
    match csvData with
    | Except.error e => Except.error (e, [])
    | Except.ok rows =>
      match openaiInit with
      | Except.error e =>
          Except.error (e, [LogEntry.start rows.length csv_file_path])
      | Except.ok _ =>
        let q := batchLoop svc store uuids 0 rows
        Except.ok { upserts := q.1,
                    logs := LogEntry.start rows.length csv_file_path :: q.2
                              ++ [LogEntry.complete] }

/-- The settings read at process start (lines 28–40).
`AZURE_OPENAI_DEPLOYMENT` has the default `"gpt4-logic"`; the other six are
required. -/
structure AppSettings where
  AZURE_OPENAI_ENDPOINT : String
  AZURE_OPENAI_KEY : String
  AZURE_OPENAI_DEPLOYMENT : String
  COSMOS_ENDPOINT : String
  COSMOS_KEY : String
  COSMOS_DATABASE_ID : String
  COSMOS_CONTAINER_ID : String
deriving DecidableEq

/-- The names of the six required settings, in the order the source reads
them. -/
def requiredSettings : List String :=
  ["AZURE_OPENAI_ENDPOINT", "AZURE_OPENAI_KEY", "COSMOS_ENDPOINT",
   "COSMOS_KEY", "COSMOS_DATABASE_ID", "COSMOS_CONTAINER_ID"]

/-- The `EnvironmentError` message raised on a missing setting:
`f"Missing required Function App setting (Environment Variable): {e}"`,
where the `KeyError` `e` renders as the quoted variable name. -/
def missingMsg (name : String) : String :=
  "Missing required Function App setting (Environment Variable): \x27" ++ name ++ "\x27"

/-- The module-level environment setup (lines 28–40): the first absent
required variable raises `EnvironmentError` naming it; the deployment name
falls back to its default. -/
def loadSettings (env : String → Option String) : Except String AppSettings :=
  match env "AZURE_OPENAI_ENDPOINT" with
  | none => Except.error (missingMsg "AZURE_OPENAI_ENDPOINT")
  | some aoEndpoint =>
    match env "AZURE_OPENAI_KEY" with
    | none => Except.error (missingMsg "AZURE_OPENAI_KEY")
    | some aoKey =>
      match env "COSMOS_ENDPOINT" with
      | none => Except.error (missingMsg "COSMOS_ENDPOINT")
      | some cEndpoint =>
        match env "COSMOS_KEY" with
        | none => Except.error (missingMsg "COSMOS_KEY")
        | some cKey =>
          match env "COSMOS_DATABASE_ID" with
          | none => Except.error (missingMsg "COSMOS_DATABASE_ID")
          | some cDb =>
            match env "COSMOS_CONTAINER_ID" with
            | none => Except.error (missingMsg "COSMOS_CONTAINER_ID")
            | some cContainer =>
              Except.ok { AZURE_OPENAI_ENDPOINT := aoEndpoint,
                          AZURE_OPENAI_KEY := aoKey,
                          AZURE_OPENAI_DEPLOYMENT :=
                            (env "AZURE_OPENAI_DEPLOYMENT").getD "gpt4-logic",
                          COSMOS_ENDPOINT := cEndpoint,
                          COSMOS_KEY := cKey,
                          COSMOS_DATABASE_ID := cDb,
                          COSMOS_CONTAINER_ID := cContainer }

/-- An HTTP response as built by `func.HttpResponse(body, status_code)`. -/
structure HttpResponse where
  body : String
  status_code : Nat
deriving DecidableEq

/-- Everything observable about one invocation of the HTTP endpoint: the
response, the Cosmos documents upserted during it, and the log stream. -/
structure Invocation where
  response : HttpResponse
  upserts : List L_T_Output
  logs : List LogEntry
deriving DecidableEq

/-- Body of the 200 response (lines 152–155). -/
def successBody : String :=
  "L ≡ T Mass Simulation Started and Completed Successfully. Data is in Cosmos DB. Check Azure Function Logs for batch status."

/-- Body of the 500 response for a configuration error (lines 159–162). -/
def configErrorBody (e : String) : String :=
  "Deployment FAILED due to missing environment variable. Check Application Settings. Error: " ++ e

/-- Body of the 500 response for any other runtime error (lines 166–168). -/
def runtimeErrorBody (e : String) : String :=
  "Simulation failed during execution. Check Function Logs. Error: " ++ e

/-- `http_trigger_function` (lines 142–169).  A missing required setting
surfaces as the `EnvironmentError` branch (500, message naming the
variable, nothing processed); a failure propagated out of
`run_simulation_batch` surfaces as the generic runtime branch (500), whose
log stream consists of whatever the batch had already logged before
aborting followed by the handler's `RUNTIME FAILED` line; otherwise the
batch runs to completion and a 200 is returned. -/
def http_trigger_function (env : String → Option String)
    (cosmosInit : Except String Unit) (csvData : Except String (List Row))
    (openaiInit : Except String Unit)
    (svc : Nat → UserMessage → Except String RawOutput)
    (store : Nat → L_T_Output → Bool) (uuids : Nat → String) : Invocation :=
  match loadSettings env with
  | Except.error e =>
      { response := { body := configErrorBody e, status_code := 500 },
        upserts := [], logs := [LogEntry.configError e] }
  | Except.ok _ =>
    match run_simulation_batch cosmosInit csvData openaiInit svc store uuids
            "victory.csv" with
    | Except.error el =>
        { response := { body := runtimeErrorBody el.1, status_code := 500 },
          upserts := [], logs := el.2 ++ [LogEntry.runtimeError el.1] }
    | Except.ok r =>
        { response := { body := successBody, status_code := 200 },
          upserts := r.upserts, logs := r.logs }

/-! ### Concrete sample data (rows, service outcomes and uuid draws used to
instantiate the theorems on closed inputs) -/

/-- The example row of the spec: case V007, category Combat. -/
def rowV007 : Row :=
  { ID := "V007", Category := "Combat",
    fullStatement := "I cannot be harmed by steel.",
    summaryTitle := "Steel Immunity" }

/-- A second concrete row. -/
def rowV008 : Row :=
  { ID := "V008", Category := "Narrative",
    fullStatement := "I am the rightful heir.",
    summaryTitle := "Heir Claim" }

/-- Storage outcome: every upsert succeeds. -/
def storeW : Nat → L_T_Output → Bool := fun _ _ => true

/-- A uuid4 draw per row index (each 36 characters, distinct 8-char prefixes). -/
def uuidsW : Nat → String := fun i =>
  if i = 0 then "123e4567-e89b-12d3-a456-426614174000"
  else "223e4567-e89b-12d3-a456-426614174000"

/-- A completion service that echoes the request payload, as the schema
instructs the model to. -/
def svcEcho : Nat → UserMessage → Except String RawOutput := fun _ msg =>
  Except.ok { id := "llm-chosen-id", truth_input := msg.truth_input,
              truth_history := msg.truth_history, status := "CONSEQUENCE",
              detail := "The new truth hardens into reality.",
              hardener_type := "SOCIAL" }

/-- A completion service whose call for the first row raises (simulated
network error) and behaves like `svcEcho` on the others. -/
def svcFailFirst : Nat → UserMessage → Except String RawOutput := fun i msg =>
  if i = 0 then Except.error "simulated network error" else svcEcho i msg

/-- A reply carrying an outcome tag outside the two allowed values. -/
def rawBadTag : RawOutput :=
  { id := "llm-chosen-id", truth_input := "I cannot be harmed by steel.",
    truth_history := [], status := "MAYBE", detail := "d",
    hardener_type := "SOCIAL" }

/-- A completion service returning `rawBadTag` on every call. -/
def svcBadTag : Nat → UserMessage → Except String RawOutput := fun _ _ =>
  Except.ok rawBadTag

/-- A schema-valid reply that does not echo the request payload. -/
def rawTampered : RawOutput :=
  { id := "llm-chosen-id", truth_input := "The moon is made of cheese.",
    truth_history := ["unrelated"], status := "CONSEQUENCE", detail := "d",
    hardener_type := "OTHER" }

/-- A completion service returning `rawTampered` on every call. -/
def svcTampered : Nat → UserMessage → Except String RawOutput := fun _ _ =>
  Except.ok rawTampered

/-- The verdict stored for `rowV007` under `svcEcho`, `storeW`, `uuidsW`. -/
def vEchoV007 : L_T_Output :=
  { id := "V007-123e4567", truth_input := "I cannot be harmed by steel.",
    truth_history := currentHistory rowV007, status := Status.CONSEQUENCE,
    detail := "The new truth hardens into reality.",
    hardener_type := HardenerType.SOCIAL }

/-- The raw reply `svcEcho` produces for `rowV007`. -/
def rawEchoV007 : RawOutput :=
  { id := "llm-chosen-id", truth_input := rowV007.fullStatement,
    truth_history := currentHistory rowV007, status := "CONSEQUENCE",
    detail := "The new truth hardens into reality.",
    hardener_type := "SOCIAL" }

/-- The verdict stored for `rowV007` under `svcTampered`, `storeW`, `uuidsW`. -/
def vTamperedV007 : L_T_Output :=
  { id := "V007-123e4567", truth_input := "The moon is made of cheese.",
    truth_history := ["unrelated"], status := Status.CONSEQUENCE,
    detail := "d", hardener_type := HardenerType.OTHER }

/-- An environment in which exactly one required setting is absent. -/
def envW : String → Option String := fun name =>
  if name = "COSMOS_KEY" then none else some "configured"

/-- An environment in which every setting is present. -/
def envFull : String → Option String := fun _ => some "configured"

/-- The settings `loadSettings` derives from `envFull`. -/
def cfgFull : AppSettings :=
  { AZURE_OPENAI_ENDPOINT := "configured", AZURE_OPENAI_KEY := "configured",
    AZURE_OPENAI_DEPLOYMENT := "configured", COSMOS_ENDPOINT := "configured",
    COSMOS_KEY := "configured", COSMOS_DATABASE_ID := "configured",
    COSMOS_CONTAINER_ID := "configured" }

/-! ### Helper lemmas about the per-row step -/

lemma processRow_svc_error (svc : Nat → UserMessage → Except String RawOutput)
    (store : Nat → L_T_Output → Bool) (uuids : Nat → String)
    (i : Nat) (row : Row) (e : String)
    (hs : svc i (userMessage row) = Except.error e) :
    processRow svc store uuids i row =
      (none, LogEntry.rowError row.ID row.fullStatement e) := by
  unfold processRow
  rw [hs]

lemma processRow_validate_error (svc : Nat → UserMessage → Except String RawOutput)
    (store : Nat → L_T_Output → Bool) (uuids : Nat → String)
    (i : Nat) (row : Row) (raw : RawOutput) (e : String)
    (hs : svc i (userMessage row) = Except.ok raw)
    (hv : validateOutput raw = Except.error e) :
    processRow svc store uuids i row =
      (none, LogEntry.rowError row.ID row.fullStatement e) := by
  simp [processRow, hs, hv]

lemma processRow_ok (svc : Nat → UserMessage → Except String RawOutput)
    (store : Nat → L_T_Output → Bool) (uuids : Nat → String)
    (i : Nat) (row : Row) (raw : RawOutput) (out : L_T_Output)
    (hs : svc i (userMessage row) = Except.ok raw)
    (hv : validateOutput raw = Except.ok out)
    (hst : store i { out with id := mkId row (uuids i) } = true) :
    processRow svc store uuids i row =
      (some { out with id := mkId row (uuids i) },
       LogEntry.processed row.ID row.summaryTitle out.status) := by
  simp [processRow, hs, hv, hst]

lemma processRow_store_fail (svc : Nat → UserMessage → Except String RawOutput)
    (store : Nat → L_T_Output → Bool) (uuids : Nat → String)
    (i : Nat) (row : Row) (raw : RawOutput) (out : L_T_Output)
    (hs : svc i (userMessage row) = Except.ok raw)
    (hv : validateOutput raw = Except.ok out)
    (hst : store i { out with id := mkId row (uuids i) } = false) :
    processRow svc store uuids i row =
      (none, LogEntry.rowError row.ID row.fullStatement "upsert failed") := by
  simp [processRow, hs, hv, hst]

lemma processRow_none_log (svc : Nat → UserMessage → Except String RawOutput)
    (store : Nat → L_T_Output → Bool) (uuids : Nat → String)
    (i : Nat) (row : Row)
    (h : (processRow svc store uuids i row).1 = none) :
    ∃ err, (processRow svc store uuids i row).2 =
      LogEntry.rowError row.ID row.fullStatement err := by
  cases hs : svc i (userMessage row) with
  | error e => exact ⟨e, by rw [processRow_svc_error svc store uuids i row e hs]⟩
  | ok raw =>
    cases hv : validateOutput raw with
    | error e =>
      exact ⟨e, by rw [processRow_validate_error svc store uuids i row raw e hs hv]⟩
    | ok out =>
      cases hst : store i { out with id := mkId row (uuids i) } with
      | true =>
        rw [processRow_ok svc store uuids i row raw out hs hv hst] at h
        simp at h
      | false =>
        exact ⟨"upsert failed",
          by rw [processRow_store_fail svc store uuids i row raw out hs hv hst]⟩

lemma processRow_some (svc : Nat → UserMessage → Except String RawOutput)
    (store : Nat → L_T_Output → Bool) (uuids : Nat → String)
    (i : Nat) (row : Row) (v : L_T_Output)
    (h : (processRow svc store uuids i row).1 = some v) :
    ∃ raw out, svc i (userMessage row) = Except.ok raw ∧
      validateOutput raw = Except.ok out ∧
      v = { out with id := mkId row (uuids i) } ∧
      store i v = true ∧
      (processRow svc store uuids i row).2 =
        LogEntry.processed row.ID row.summaryTitle v.status := by
  cases hs : svc i (userMessage row) with
  | error e => rw [processRow_svc_error svc store uuids i row e hs] at h; simp at h
  | ok raw =>
    cases hv : validateOutput raw with
    | error e =>
      rw [processRow_validate_error svc store uuids i row raw e hs hv] at h
      simp at h
    | ok out =>
      cases hst : store i { out with id := mkId row (uuids i) } with
      | false =>
        rw [processRow_store_fail svc store uuids i row raw out hs hv hst] at h
        simp at h
      | true =>
        rw [processRow_ok svc store uuids i row raw out hs hv hst] at h
        simp only [Option.some.injEq] at h
        refine ⟨raw, out, rfl, hv, h.symm, ?_, ?_⟩
        · rw [← h]; exact hst
        · rw [processRow_ok svc store uuids i row raw out hs hv hst, ← h]

lemma processRow_some_id (svc : Nat → UserMessage → Except String RawOutput)
    (store : Nat → L_T_Output → Bool) (uuids : Nat → String)
    (i : Nat) (row : Row) (v : L_T_Output)
    (h : (processRow svc store uuids i row).1 = some v) :
    v.id = mkId row (uuids i) := by
  rcases processRow_some svc store uuids i row v h with ⟨raw, out, _, _, hv, _, _⟩
  rw [hv]

/-! ### Helper lemmas about the loop -/

lemma batchLoop_snd_length (svc : Nat → UserMessage → Except String RawOutput)
    (store : Nat → L_T_Output → Bool) (uuids : Nat → String) :
    ∀ (i : Nat) (rows : List Row),
      (batchLoop svc store uuids i rows).2.length = rows.length := by
  intro i rows
  induction rows generalizing i with
  | nil => rfl
  | cons row rest ih => simp [batchLoop, ih]

lemma batchLoop_snd_getElem (svc : Nat → UserMessage → Except String RawOutput)
    (store : Nat → L_T_Output → Bool) (uuids : Nat → String) :
    ∀ (i k : Nat) (rows : List Row),
      (batchLoop svc store uuids i rows).2[k]? =
        (rows[k]?).map (fun r => (processRow svc store uuids (i + k) r).2) := by
  intro i k rows
  induction rows generalizing i k with
  | nil => simp [batchLoop]
  | cons row rest ih =>
    cases k with
    | zero => simp [batchLoop]
    | succ k =>
      have harith : i + 1 + k = i + (k + 1) := by omega
      have := ih (i + 1) k
      rw [harith] at this
      simp only [batchLoop, List.getElem?_cons_succ]
      rw [this]

lemma batchLoop_mem_fst (svc : Nat → UserMessage → Except String RawOutput)
    (store : Nat → L_T_Output → Bool) (uuids : Nat → String) :
    ∀ (i k : Nat) (rows : List Row) (r : Row) (v : L_T_Output),
      rows[k]? = some r → (processRow svc store uuids (i + k) r).1 = some v →
      v ∈ (batchLoop svc store uuids i rows).1 := by
  intro i k rows
  induction rows generalizing i k with
  | nil => intro r v h; simp at h
  | cons row rest ih =>
    intro r v hr hv
    cases k with
    | zero =>
      simp only [List.getElem?_cons_zero, Option.some.injEq] at hr
      subst hr
      rw [Nat.add_zero] at hv
      simp [batchLoop, hv]
    | succ k =>
      simp only [List.getElem?_cons_succ] at hr
      have harith : i + (k + 1) = (i + 1) + k := by omega
      rw [harith] at hv
      have := ih (i + 1) k r v hr hv
      simp [batchLoop, this]

lemma batchLoop_fst_source (svc : Nat → UserMessage → Except String RawOutput)
    (store : Nat → L_T_Output → Bool) (uuids : Nat → String) :
    ∀ (i : Nat) (rows : List Row) (v : L_T_Output),
      v ∈ (batchLoop svc store uuids i rows).1 →
      ∃ k r, rows[k]? = some r ∧
        (processRow svc store uuids (i + k) r).1 = some v := by
  intro i rows
  induction rows generalizing i with
  | nil => intro v h; simp [batchLoop] at h
  | cons row rest ih =>
    intro v h
    simp only [batchLoop] at h
    rcases List.mem_append.1 h with h1 | h2
    · refine ⟨0, row, by simp, ?_⟩
      rw [Nat.add_zero]
      cases hp : (processRow svc store uuids i row).1 with
      | none => rw [hp] at h1; simp at h1
      | some w =>
        rw [hp] at h1
        simp only [Option.toList_some, List.mem_singleton] at h1
        rw [h1]
    · rcases ih (i + 1) v h2 with ⟨k, r, hr, hv⟩
      refine ⟨k + 1, r, by simpa using hr, ?_⟩
      have harith : i + (k + 1) = (i + 1) + k := by omega
      rw [harith]; exact hv

lemma batchLoop_fst_length (svc : Nat → UserMessage → Except String RawOutput)
    (store : Nat → L_T_Output → Bool) (uuids : Nat → String) :
    ∀ (i : Nat) (rows : List Row),
      (∀ k r, rows[k]? = some r →
        ((processRow svc store uuids (i + k) r).1).isSome = true) →
      (batchLoop svc store uuids i rows).1.length = rows.length := by
  intro i rows
  induction rows generalizing i with
  | nil => intro _; rfl
  | cons row rest ih =>
    intro hs
    have h0 := hs 0 row (by simp)
    rw [Nat.add_zero] at h0
    have hrest : ∀ k r, rest[k]? = some r →
        ((processRow svc store uuids (i + 1 + k) r).1).isSome = true := by
      intro k r hr
      have := hs (k + 1) r (by simpa using hr)
      have harith : i + (k + 1) = i + 1 + k := by omega
      rw [harith] at this
      exact this
    simp only [batchLoop]
    rw [List.length_append, ih (i + 1) hrest]
    cases hp : (processRow svc store uuids i row).1 with
    | none => rw [hp] at h0; simp at h0
    | some v => simp [hp, Nat.add_comm]

/-! ### Identifier uniqueness machinery -/

lemma randSuffix_length (u : String) (h : 8 ≤ u.data.length) :
    (randSuffix u).data.length = 8 := by
  simp only [randSuffix, List.length_take]
  omega

lemma suffix_eq_of_mkId_eq {r1 r2 : Row} {u1 u2 : String}
    (h : mkId r1 u1 = mkId r2 u2)
    (hl : (randSuffix u1).data.length = (randSuffix u2).data.length) :
    randSuffix u1 = randSuffix u2 := by
  have hd : (r1.ID ++ "-").data ++ (randSuffix u1).data
      = (r2.ID ++ "-").data ++ (randSuffix u2).data := congrArg String.data h
  have hdata := (List.append_inj' hd hl).2
  exact congrArg String.mk hdata

lemma mkId_ne {r1 r2 : Row} {u1 u2 : String}
    (hsuf : randSuffix u1 ≠ randSuffix u2)
    (hl : (randSuffix u1).data.length = (randSuffix u2).data.length) :
    mkId r1 u1 ≠ mkId r2 u2 :=
  fun h => hsuf (suffix_eq_of_mkId_eq h hl)

lemma batchLoop_pairwise_id (svc : Nat → UserMessage → Except String RawOutput)
    (store : Nat → L_T_Output → Bool) (uuids : Nat → String) :
    ∀ (i : Nat) (rows : List Row),
      (∀ j k, i ≤ j → j < i + rows.length → i ≤ k → k < i + rows.length → j ≠ k →
        randSuffix (uuids j) ≠ randSuffix (uuids k)) →
      (∀ j, i ≤ j → j < i + rows.length → 8 ≤ (uuids j).data.length) →
      ((batchLoop svc store uuids i rows).1).Pairwise (fun a b => a.id ≠ b.id) := by
  intro i rows
  induction rows generalizing i with
  | nil => intro _ _; simp [batchLoop]
  | cons row rest ih =>
    intro hdist hlen
    have htail := ih (i + 1)
      (by
        intro j k hj1 hj2 hk1 hk2 hjk
        exact hdist j k (by omega) (by simp only [List.length_cons]; omega)
          (by omega) (by simp only [List.length_cons]; omega) hjk)
      (by
        intro j hj1 hj2
        exact hlen j (by omega) (by simp only [List.length_cons]; omega))
    simp only [batchLoop]
    cases hp : (processRow svc store uuids i row).1 with
    | none => simpa using htail
    | some v =>
      simp only [Option.toList_some, List.singleton_append]
      rw [List.pairwise_cons]
      refine ⟨?_, htail⟩
      intro w hw
      rcases batchLoop_fst_source svc store uuids (i + 1) rest w hw with ⟨k, r, hr, hwv⟩
      have hk : k < rest.length := (List.getElem?_eq_some.1 hr).1
      have hvid := processRow_some_id svc store uuids i row v hp
      have hwid := processRow_some_id svc store uuids (i + 1 + k) r w hwv
      rw [hvid, hwid]
      apply mkId_ne
      · exact hdist i (i + 1 + k) (Nat.le_refl i)
          (by simp only [List.length_cons]; omega) (by omega)
          (by simp only [List.length_cons]; omega) (by omega)
      · rw [randSuffix_length _
            (hlen i (Nat.le_refl i) (by simp only [List.length_cons]; omega)),
          randSuffix_length _
            (hlen (i + 1 + k) (by omega) (by simp only [List.length_cons]; omega))]

/-! ### Validation inversion lemmas -/

lemma validateOutput_ok (raw : RawOutput) (out : L_T_Output)
    (h : validateOutput raw = Except.ok out) :
    statusOfString raw.status = some out.status ∧
    hardenerOfString raw.hardener_type = some out.hardener_type ∧
    out.id = raw.id ∧ out.truth_input = raw.truth_input ∧
    out.truth_history = raw.truth_history ∧ out.detail = raw.detail := by
  unfold validateOutput at h
  cases hst : statusOfString raw.status with
  | none => rw [hst] at h; simp at h
  | some st =>
    cases hht : hardenerOfString raw.hardener_type with
    | none => rw [hst, hht] at h; simp at h
    | some ht =>
      rw [hst, hht] at h
      simp only [Except.ok.injEq] at h
      subst h
      exact ⟨rfl, rfl, rfl, rfl, rfl, rfl⟩

lemma validateOutput_error_of_bad (raw : RawOutput)
    (hbad : (raw.status ≠ "CONTRADICTION" ∧ raw.status ≠ "CONSEQUENCE") ∨
      (raw.hardener_type ≠ "PHYSICAL" ∧ raw.hardener_type ≠ "TEMPORAL" ∧
       raw.hardener_type ≠ "SOCIAL" ∧ raw.hardener_type ≠ "OTHER")) :
    validateOutput raw =
      Except.error "validation error for L_T_Output: value is not a permitted literal" := by
  unfold validateOutput
  rcases hbad with ⟨h1, h2⟩ | ⟨h1, h2, h3, h4⟩
  · have hst : statusOfString raw.status = none := by
      simp [statusOfString, h1, h2]
    rw [hst]
  · have hht : hardenerOfString raw.hardener_type = none := by
      simp [hardenerOfString, h1, h2, h3, h4]
    cases hst : statusOfString raw.status with
    | none => rfl
    | some st => rw [hht]

/-! ### Claim theorems -/

/-- C2: For every input row, the truth history sent to the completion
service (the `truth_history` field of the request payload handed to `svc`
in `processRow`) contains exactly 4 entries: the 3 fixed base statements of
`INITIAL_HISTORY` followed by 1 statement derived from the row's category
value, in that fixed order. -/
theorem C2_truth_history_four_entries (row : Row) :
    (userMessage row).truth_history.length = 4 ∧
    INITIAL_HISTORY.length = 3 ∧
    (userMessage row).truth_history =
      INITIAL_HISTORY ++ [contextStatement row.Category] := by
  refine ⟨?_, rfl, rfl⟩
  simp [userMessage, currentHistory, INITIAL_HISTORY]

/-- C3: For every successfully processed row, the identifier returned by the
completion service is overwritten before the storage write: the stored
verdict's id equals the row's case identifier, a hyphen, and the freshly
generated suffix `str(uuid.uuid4())[:8]` — which has 8 characters, a uuid4
string having 36 — regardless of what id the service assigned (the theorem
holds for every `svc`, hence for every id the service may return). -/
theorem C3_id_overwritten (svc : Nat → UserMessage → Except String RawOutput)
    (store : Nat → L_T_Output → Bool) (uuids : Nat → String)
    (i : Nat) (row : Row) (v : L_T_Output)
    (h : (processRow svc store uuids i row).1 = some v) :
    v.id = row.ID ++ "-" ++ randSuffix (uuids i) ∧
    ((uuids i).data.length = 36 → (randSuffix (uuids i)).data.length = 8) := by
  constructor
  · exact processRow_some_id svc store uuids i row v h
  · intro h36
    exact randSuffix_length (uuids i) (by omega)

/-- C9: For every successfully processed row, the only field of the
completion service's validated response that the program modifies before
the storage upsert is `id`; the other five fields are written to storage
exactly as the service returned them.  The theorem holds for an arbitrary
`raw` reply — in particular with no check that `truth_input` or
`truth_history` match what was actually sent. -/
theorem C9_only_id_modified (svc : Nat → UserMessage → Except String RawOutput)
    (store : Nat → L_T_Output → Bool) (uuids : Nat → String)
    (i : Nat) (row : Row) (raw : RawOutput) (v : L_T_Output)
    (hs : svc i (userMessage row) = Except.ok raw)
    (hv : (processRow svc store uuids i row).1 = some v) :
    v.truth_input = raw.truth_input ∧
    v.truth_history = raw.truth_history ∧
    v.detail = raw.detail ∧
    statusOfString raw.status = some v.status ∧
    hardenerOfString raw.hardener_type = some v.hardener_type ∧
    v.id = mkId row (uuids i) := by
  rcases processRow_some svc store uuids i row v hv with
    ⟨raw2, out, hs2, hval, hveq, _, _⟩
  rw [hs] at hs2
  simp only [Except.ok.injEq] at hs2
  subst hs2
  rcases validateOutput_ok raw out hval with ⟨h1, h2, _, h4, h5, h6⟩
  subst hveq
  exact ⟨h4, h5, h6, h1, h2, rfl⟩

/-- C5: For every row for which the completion service's response carries an
outcome tag outside the two allowed values or a classification tag outside
the four allowed values, that row is treated as a failure: no storage write
occurs for it (no upsert is produced, and the result does not even depend
on the storage client) and the failure is logged with the case identifier
and the statement. -/
theorem C5_invalid_tags_fail (svc : Nat → UserMessage → Except String RawOutput)
    (store : Nat → L_T_Output → Bool) (uuids : Nat → String)
    (i : Nat) (row : Row) (raw : RawOutput)
    (hs : svc i (userMessage row) = Except.ok raw)
    (hbad : (raw.status ≠ "CONTRADICTION" ∧ raw.status ≠ "CONSEQUENCE") ∨
      (raw.hardener_type ≠ "PHYSICAL" ∧ raw.hardener_type ≠ "TEMPORAL" ∧
       raw.hardener_type ≠ "SOCIAL" ∧ raw.hardener_type ≠ "OTHER")) :
    (processRow svc store uuids i row).1 = none ∧
    (∃ err, (processRow svc store uuids i row).2 =
      LogEntry.rowError row.ID row.fullStatement err) ∧
    ∀ store2, processRow svc store2 uuids i row = processRow svc store uuids i row := by
  have he := validateOutput_error_of_bad raw hbad
  have hpr := processRow_validate_error svc store uuids i row raw _ hs he
  refine ⟨by rw [hpr], ⟨_, by rw [hpr]⟩, ?_⟩
  intro store2
  rw [hpr, processRow_validate_error svc store2 uuids i row raw _ hs he]

lemma run_simulation_batch_ok (svc : Nat → UserMessage → Except String RawOutput)
    (store : Nat → L_T_Output → Bool) (uuids : Nat → String)
    (rows : List Row) (path : String) :
    run_simulation_batch (Except.ok ()) (Except.ok rows) (Except.ok ()) svc store uuids path =
      Except.ok { upserts := (batchLoop svc store uuids 0 rows).1,
                  logs := LogEntry.start rows.length path ::
                    (batchLoop svc store uuids 0 rows).2 ++ [LogEntry.complete] } := rfl

/-- C1: For every input row, any failure occurring during steps 2–5 is
caught: a failing row yields no upsert but a `rowError` log entry carrying
the case identifier and the offending statement at the row's position in
the log stream; the loop processes every row regardless (one log entry per
row), and every other row whose pipeline succeeds still has its upsert in
the batch output. -/
theorem C1_per_row_failure_isolation
    (svc : Nat → UserMessage → Except String RawOutput)
    (store : Nat → L_T_Output → Bool) (uuids : Nat → String)
    (rows : List Row) (i : Nat) (row : Row)
    (hrow : rows[i]? = some row)
    (hfail : (processRow svc store uuids i row).1 = none) :
    (batchLoop svc store uuids 0 rows).2.length = rows.length ∧
    (∃ err, (batchLoop svc store uuids 0 rows).2[i]? =
      some (LogEntry.rowError row.ID row.fullStatement err)) ∧
    ∀ j rj v, rows[j]? = some rj →
      (processRow svc store uuids j rj).1 = some v →
      v ∈ (batchLoop svc store uuids 0 rows).1 := by
  refine ⟨batchLoop_snd_length svc store uuids 0 rows, ?_, ?_⟩
  · rcases processRow_none_log svc store uuids i row hfail with ⟨err, herr⟩
    refine ⟨err, ?_⟩
    rw [batchLoop_snd_getElem svc store uuids 0 i rows, hrow]
    simp [Nat.zero_add, herr]
  · intro j rj v hj hv
    exact batchLoop_mem_fst svc store uuids 0 j rows rj v hj
      (by rw [Nat.zero_add]; exact hv)

/-- C4: For every run over valid input rows (each row's pipeline succeeds),
exactly one storage upsert occurs per row, and, provided the drawn uuid4
strings are 36 characters long and have pairwise distinct 8-character
prefixes, each row's verdict identifier differs from every other row's
verdict identifier in the same run. -/
theorem C4_one_upsert_per_row_unique_ids
    (svc : Nat → UserMessage → Except String RawOutput)
    (store : Nat → L_T_Output → Bool) (uuids : Nat → String)
    (rows : List Row)
    (hsucc : ∀ k r, rows[k]? = some r →
      ((processRow svc store uuids k r).1).isSome = true)
    (hdist : ∀ j k, j < rows.length → k < rows.length → j ≠ k →
      randSuffix (uuids j) ≠ randSuffix (uuids k))
    (hlen : ∀ j, j < rows.length → (uuids j).data.length = 36) :
    (batchLoop svc store uuids 0 rows).1.length = rows.length ∧
    ((batchLoop svc store uuids 0 rows).1).Pairwise (fun a b => a.id ≠ b.id) := by
  constructor
  · apply batchLoop_fst_length
    intro k r h
    rw [Nat.zero_add]
    exact hsucc k r h
  · apply batchLoop_pairwise_id svc store uuids 0 rows
    · intro j k _ hj2 _ hk2 hjk
      exact hdist j k (by omega) (by omega) hjk
    · intro j _ hj2
      have := hlen j (by omega)
      omega

/-- C6: If a required configuration setting is absent, the HTTP endpoint
returns a 500 response whose message names a missing required setting
(the first absent one in the order the source reads them), and nothing is
processed in that invocation: no storage upsert occurs and no batch log
line is emitted. -/
theorem C6_missing_setting_500 (env : String → Option String) (name : String)
    (hreq : name ∈ requiredSettings) (hmiss : env name = none)
    (cosmosInit : Except String Unit) (csvData : Except String (List Row))
    (openaiInit : Except String Unit)
    (svc : Nat → UserMessage → Except String RawOutput)
    (store : Nat → L_T_Output → Bool) (uuids : Nat → String) :
    ∃ m, m ∈ requiredSettings ∧ env m = none ∧
      http_trigger_function env cosmosInit csvData openaiInit svc store uuids =
        { response := { body := configErrorBody (missingMsg m), status_code := 500 },
          upserts := [], logs := [LogEntry.configError (missingMsg m)] } := by
  have step : ∃ m, m ∈ requiredSettings ∧ env m = none ∧
      loadSettings env = Except.error (missingMsg m) := by
    cases h1 : env "AZURE_OPENAI_ENDPOINT" with
    | none =>
      exact ⟨_, by simp [requiredSettings], h1, by simp [loadSettings, h1]⟩
    | some v1 =>
      cases h2 : env "AZURE_OPENAI_KEY" with
      | none =>
        exact ⟨_, by simp [requiredSettings], h2, by simp [loadSettings, h1, h2]⟩
      | some v2 =>
        cases h3 : env "COSMOS_ENDPOINT" with
        | none =>
          exact ⟨_, by simp [requiredSettings], h3, by simp [loadSettings, h1, h2, h3]⟩
        | some v3 =>
          cases h4 : env "COSMOS_KEY" with
          | none =>
            exact ⟨_, by simp [requiredSettings], h4,
              by simp [loadSettings, h1, h2, h3, h4]⟩
          | some v4 =>
            cases h5 : env "COSMOS_DATABASE_ID" with
            | none =>
              exact ⟨_, by simp [requiredSettings], h5,
                by simp [loadSettings, h1, h2, h3, h4, h5]⟩
            | some v5 =>
              cases h6 : env "COSMOS_CONTAINER_ID" with
              | none =>
                exact ⟨_, by simp [requiredSettings], h6,
                  by simp [loadSettings, h1, h2, h3, h4, h5, h6]⟩
              | some v6 =>
                exfalso
                simp only [requiredSettings, List.mem_cons,
                  List.not_mem_nil, or_false] at hreq
                rcases hreq with rfl | rfl | rfl | rfl | rfl | rfl <;> simp_all
  rcases step with ⟨m, hm, hme, hload⟩
  refine ⟨m, hm, hme, ?_⟩
  unfold http_trigger_function
  rw [hload]

/-- C7: Any error occurring outside the per-row loop — Cosmos client
construction, reading the input file, or OpenAI client construction —
propagates out of `run_simulation_batch`, aborts the whole batch, and is
surfaced at the HTTP boundary as the generic runtime failure with status
500 and no upsert recorded for the invocation.  The invocation's log
stream is whatever the batch had logged before aborting followed by the
handler's runtime-error line, the pre-abort logs being either empty (the
Cosmos client construction and the CSV read precede any logging) or
exactly the start summary line for the CSV's row count (emitted at line
87, before the OpenAI client is constructed at lines 90–94). -/
theorem C7_outside_loop_errors_propagate (env : String → Option String)
    (cfg : AppSettings) (cosmosInit : Except String Unit)
    (csvData : Except String (List Row)) (openaiInit : Except String Unit)
    (svc : Nat → UserMessage → Except String RawOutput)
    (store : Nat → L_T_Output → Bool) (uuids : Nat → String) (e : String)
    (hcfg : loadSettings env = Except.ok cfg)
    (habort : cosmosInit = Except.error e ∨
      (cosmosInit = Except.ok () ∧ csvData = Except.error e) ∨
      (cosmosInit = Except.ok () ∧ openaiInit = Except.error e ∧
        ∃ rows, csvData = Except.ok rows)) :
    ∃ ls,
      run_simulation_batch cosmosInit csvData openaiInit svc store uuids
        "victory.csv" = Except.error (e, ls) ∧
      http_trigger_function env cosmosInit csvData openaiInit svc store uuids =
        { response := { body := runtimeErrorBody e, status_code := 500 },
          upserts := [], logs := ls ++ [LogEntry.runtimeError e] } ∧
      (ls = [] ∨ ∃ rows, csvData = Except.ok rows ∧
        ls = [LogEntry.start rows.length "victory.csv"]) := by
  rcases habort with h | ⟨h1, h2⟩ | ⟨h1, h2, rows, h3⟩
  · have hb : run_simulation_batch cosmosInit csvData openaiInit svc store uuids
        "victory.csv" = Except.error (e, []) := by rw [h]; rfl
    refine ⟨[], hb, ?_, Or.inl rfl⟩
    unfold http_trigger_function
    rw [hcfg, hb]
  · have hb : run_simulation_batch cosmosInit csvData openaiInit svc store uuids
        "victory.csv" = Except.error (e, []) := by rw [h1, h2]; rfl
    refine ⟨[], hb, ?_, Or.inl rfl⟩
    unfold http_trigger_function
    rw [hcfg, hb]
  · have hb : run_simulation_batch cosmosInit csvData openaiInit svc store uuids
        "victory.csv" =
        Except.error (e, [LogEntry.start rows.length "victory.csv"]) := by
      rw [h1, h3, h2]
      rfl
    refine ⟨[LogEntry.start rows.length "victory.csv"], hb, ?_,
      Or.inr ⟨rows, h3, rfl⟩⟩
    unfold http_trigger_function
    rw [hcfg, hb]

lemma run_simulation_batch_empty (svc : Nat → UserMessage → Except String RawOutput)
    (store : Nat → L_T_Output → Bool) (uuids : Nat → String) (path : String) :
    run_simulation_batch (Except.ok ()) (Except.ok []) (Except.ok ()) svc store uuids path =
      Except.ok { upserts := [],
                  logs := [LogEntry.start 0 path, LogEntry.complete] } := rfl

/-- C10: For an input file containing zero data rows, the batch makes no
completion service calls and no storage writes (the invocation is the same
for every completion service, storage outcome and uuid supply), still emits
the start and completion summary log lines, and the HTTP endpoint returns
status 200 with the success message. -/
theorem C10_empty_input (env : String → Option String) (cfg : AppSettings)
    (svc : Nat → UserMessage → Except String RawOutput)
    (store : Nat → L_T_Output → Bool) (uuids : Nat → String)
    (hcfg : loadSettings env = Except.ok cfg) :
    http_trigger_function env (Except.ok ()) (Except.ok []) (Except.ok ())
        svc store uuids =
      { response := { body := successBody, status_code := 200 },
        upserts := [],
        logs := [LogEntry.start 0 "victory.csv", LogEntry.complete] } ∧
    ∀ svc2 store2 uuids2,
      http_trigger_function env (Except.ok ()) (Except.ok []) (Except.ok ())
          svc2 store2 uuids2 =
        http_trigger_function env (Except.ok ()) (Except.ok []) (Except.ok ())
          svc store uuids := by
  constructor
  · unfold http_trigger_function
    rw [hcfg, run_simulation_batch_empty]
  · intro svc2 store2 uuids2
    unfold http_trigger_function
    rw [hcfg, run_simulation_batch_empty, run_simulation_batch_empty]

/-- C8 counterexample: a row can be processed successfully while the stored
verdict's `truth_input` and `truth_history` differ from the row's statement
and the history sent — the program copies whatever the service returned,
so the claim that every stored verdict contains the row's statement and the
sent history is false as stated. -/
theorem C8_counterexample :
    (processRow svcTampered storeW uuidsW 0 rowV007).1 = some vTamperedV007 ∧
    vTamperedV007.truth_input ≠ rowV007.fullStatement ∧
    vTamperedV007.truth_history ≠
      INITIAL_HISTORY ++ [contextStatement rowV007.Category] := by
  refine ⟨by decide, by decide, by decide⟩

/-- C8 (amended): for every successfully processed row, the stored verdict
carries whatever `truth_input` and `truth_history` the service returned;
when the service echoes the request payload (as the schema instructs), the
verdict contains the row's statement in `truth_input`, the snapshot of the
history sent (3 base statements plus the category-derived statement) in
`truth_history`, and an id beginning with the case identifier and a
hyphen. -/
theorem C8_verdict_contents_when_echoed
    (svc : Nat → UserMessage → Except String RawOutput)
    (store : Nat → L_T_Output → Bool) (uuids : Nat → String)
    (i : Nat) (row : Row) (raw : RawOutput) (v : L_T_Output)
    (hs : svc i (userMessage row) = Except.ok raw)
    (hv : (processRow svc store uuids i row).1 = some v)
    (hecho1 : raw.truth_input = (userMessage row).truth_input)
    (hecho2 : raw.truth_history = (userMessage row).truth_history) :
    v.truth_input = row.fullStatement ∧
    v.truth_history = INITIAL_HISTORY ++ [contextStatement row.Category] ∧
    ∃ s, v.id = row.ID ++ "-" ++ s := by
  rcases processRow_some svc store uuids i row v hv with
    ⟨raw2, out, hs2, hval, hveq, _, _⟩
  rw [hs] at hs2
  simp only [Except.ok.injEq] at hs2
  subst hs2
  rcases validateOutput_ok raw out hval with ⟨_, _, _, h4, h5, _⟩
  subst hveq
  refine ⟨?_, ?_, ⟨randSuffix (uuids i), rfl⟩⟩
  · show out.truth_input = row.fullStatement
    rw [h4, hecho1]
    rfl
  · show out.truth_history = INITIAL_HISTORY ++ [contextStatement row.Category]
    rw [h5, hecho2]
    rfl

/-! ### Closed-instance witnesses -/

/-- Witness for C1 on a concrete two-row batch whose first completion call
fails. -/
theorem C1_witness :
    (batchLoop svcFailFirst storeW uuidsW 0 [rowV007, rowV008]).2.length =
      [rowV007, rowV008].length ∧
    (∃ err, (batchLoop svcFailFirst storeW uuidsW 0 [rowV007, rowV008]).2[0]? =
      some (LogEntry.rowError rowV007.ID rowV007.fullStatement err)) ∧
    ∀ j rj v, [rowV007, rowV008][j]? = some rj →
      (processRow svcFailFirst storeW uuidsW j rj).1 = some v →
      v ∈ (batchLoop svcFailFirst storeW uuidsW 0 [rowV007, rowV008]).1 :=
  C1_per_row_failure_isolation svcFailFirst storeW uuidsW [rowV007, rowV008]
    0 rowV007 (by simp) (by decide)

/-- Witness for C3 on the concrete V007 row under the echoing service. -/
theorem C3_witness :
    vEchoV007.id = rowV007.ID ++ "-" ++ randSuffix (uuidsW 0) ∧
    ((uuidsW 0).data.length = 36 → (randSuffix (uuidsW 0)).data.length = 8) :=
  C3_id_overwritten svcEcho storeW uuidsW 0 rowV007 vEchoV007 (by decide)

/-- Witness for C4 on a concrete two-row batch in which every row
succeeds. -/
theorem C4_witness :
    (batchLoop svcEcho storeW uuidsW 0 [rowV007, rowV008]).1.length =
      [rowV007, rowV008].length ∧
    ((batchLoop svcEcho storeW uuidsW 0 [rowV007, rowV008]).1).Pairwise
      (fun a b => a.id ≠ b.id) :=
  C4_one_upsert_per_row_unique_ids svcEcho storeW uuidsW [rowV007, rowV008]
    (by
      intro k r hk
      match k with
      | 0 =>
        simp only [List.getElem?_cons_zero, Option.some.injEq] at hk
        subst hk
        decide
      | 1 =>
        simp only [List.getElem?_cons_succ, List.getElem?_cons_zero,
          Option.some.injEq] at hk
        subst hk
        decide
      | (n + 2) => simp at hk)
    (by
      intro j k hj hk hne
      simp only [List.length_cons, List.length_nil] at hj hk
      interval_cases j <;> interval_cases k <;> first
        | exact absurd rfl hne
        | decide)
    (by
      intro j hj
      by_cases h0 : j = 0
      · subst h0; decide
      · simp only [uuidsW, if_neg h0]; decide)

/-- Witness for C5 on a concrete reply whose outcome tag is `"MAYBE"`. -/
theorem C5_witness :
    (processRow svcBadTag storeW uuidsW 0 rowV007).1 = none ∧
    (∃ err, (processRow svcBadTag storeW uuidsW 0 rowV007).2 =
      LogEntry.rowError rowV007.ID rowV007.fullStatement err) ∧
    ∀ store2, processRow svcBadTag store2 uuidsW 0 rowV007 =
      processRow svcBadTag storeW uuidsW 0 rowV007 :=
  C5_invalid_tags_fail svcBadTag storeW uuidsW 0 rowV007 rawBadTag rfl
    (Or.inl ⟨by decide, by decide⟩)

/-- Witness for C6 on an environment missing exactly `COSMOS_KEY`. -/
theorem C6_witness :
    ∃ m, m ∈ requiredSettings ∧ envW m = none ∧
      http_trigger_function envW (Except.ok ()) (Except.ok [rowV007])
          (Except.ok ()) svcEcho storeW uuidsW =
        { response := { body := configErrorBody (missingMsg m), status_code := 500 },
          upserts := [], logs := [LogEntry.configError (missingMsg m)] } :=
  C6_missing_setting_500 envW "COSMOS_KEY" (by decide) (by decide)
    (Except.ok ()) (Except.ok [rowV007]) (Except.ok ()) svcEcho storeW uuidsW

/-- Witness for C7 on a concrete invocation whose OpenAI client
construction fails after the one-row CSV was read: the batch aborts with
the start summary line already emitted, and the 500 invocation's log
stream is that line followed by the runtime-error line. -/
theorem C7_witness :
    ∃ ls,
      run_simulation_batch (Except.ok ()) (Except.ok [rowV007])
          (Except.error "openai client construction failed")
          svcEcho storeW uuidsW "victory.csv" =
        Except.error ("openai client construction failed", ls) ∧
      http_trigger_function envFull (Except.ok ()) (Except.ok [rowV007])
          (Except.error "openai client construction failed")
          svcEcho storeW uuidsW =
        { response := { body := runtimeErrorBody "openai client construction failed",
                        status_code := 500 },
          upserts := [],
          logs := ls ++ [LogEntry.runtimeError "openai client construction failed"] } ∧
      (ls = [] ∨ ∃ rows,
        (Except.ok [rowV007] : Except String (List Row)) = Except.ok rows ∧
        ls = [LogEntry.start rows.length "victory.csv"]) :=
  C7_outside_loop_errors_propagate envFull cfgFull (Except.ok ())
    (Except.ok [rowV007]) (Except.error "openai client construction failed")
    svcEcho storeW uuidsW "openai client construction failed" rfl
    (Or.inr (Or.inr ⟨rfl, rfl, [rowV007], rfl⟩))

/-- Witness for C8 (amended) on the concrete V007 row under the echoing
service: the spec's example values. -/
theorem C8_witness :
    vEchoV007.truth_input = rowV007.fullStatement ∧
    vEchoV007.truth_history =
      INITIAL_HISTORY ++ [contextStatement rowV007.Category] ∧
    ∃ s, vEchoV007.id = rowV007.ID ++ "-" ++ s :=
  C8_verdict_contents_when_echoed svcEcho storeW uuidsW 0 rowV007 rawEchoV007
    vEchoV007 rfl (by decide) rfl rfl

/-- Witness for C9 on a concrete non-echoing reply: every field except `id`
is stored exactly as returned, with nothing comparing it to the request. -/
theorem C9_witness :
    vTamperedV007.truth_input = rawTampered.truth_input ∧
    vTamperedV007.truth_history = rawTampered.truth_history ∧
    vTamperedV007.detail = rawTampered.detail ∧
    statusOfString rawTampered.status = some vTamperedV007.status ∧
    hardenerOfString rawTampered.hardener_type = some vTamperedV007.hardener_type ∧
    vTamperedV007.id = mkId rowV007 (uuidsW 0) :=
  C9_only_id_modified svcTampered storeW uuidsW 0 rowV007 rawTampered
    vTamperedV007 rfl (by decide)

/-- Witness for C10 on a concrete fully-configured environment and an empty
input file. -/
theorem C10_witness :
    http_trigger_function envFull (Except.ok ()) (Except.ok []) (Except.ok ())
        svcEcho storeW uuidsW =
      { response := { body := successBody, status_code := 200 },
        upserts := [],
        logs := [LogEntry.start 0 "victory.csv", LogEntry.complete] } ∧
    ∀ svc2 store2 uuids2,
      http_trigger_function envFull (Except.ok ()) (Except.ok []) (Except.ok ())
          svc2 store2 uuids2 =
        http_trigger_function envFull (Except.ok ()) (Except.ok []) (Except.ok ())
          svcEcho storeW uuidsW :=
  C10_empty_input envFull cfgFull svcEcho storeW uuidsW rfl
